import Mathlib

/-!
# Verification of the scrape-and-store worker (src/src/lib.rs)

A shallow embedding of the Cloudflare-worker scraper. External effects
(HTTP attempts, JSON decoding, R2 puts, the millisecond clock) are modelled
as oracles passed in as functions; the control flow of `main`,
`scrape_and_store`, `fetch_links`, `fetch_markdown`, `retry_request` and
`url_to_filename` is translated from the Rust source. Fallible operations
are `Except String` values, matching `worker::Result` whose only error
payload here is `worker::Error::RustError(String)` (displayed as the bare
string).
-/

namespace Scraper

/-- An HTTP response as seen by the retry envelope: a status code and a raw
body (the body is consumed later by the JSON-decode stage). Models
`reqwest::Response`. -/
structure Resp where
  status : Nat
  body : String
deriving DecidableEq, Repr

deriving instance DecidableEq for Except

/-- Outcome of one network attempt: a response, or a transport-level error
with its display text. Models `reqwest::Result<reqwest::Response>`. -/
abbrev AttemptOutcome := Except String Resp

/-- `reqwest::StatusCode::is_success`: the 2xx range. -/
def is2xx (s : Nat) : Bool := 200 ≤ s && s < 300

/-- An attempt outcome that the retry loop treats as a failure: a transport
error, or a response whose status is not 2xx. -/
def attemptFails : AttemptOutcome → Bool
  | .ok r => !(is2xx r.status)
  | .error _ => true

/-- `max_retries` constant of `retry_request`. -/
def maxRetries : Nat := 3

/-- `retry_delay` constant of `retry_request`, in seconds. -/
def retryDelaySecs : Nat := 2

/-- Observable trace of one `retry_request` call: the returned value (the
successful response, or the terminal error message), how many times the
operation closure was invoked, the attempt numbers logged by
`console_log!("Retry attempt {} for request", attempt)`, and the sleep
durations (seconds) of the `worker::Delay` suspensions, in order. -/
structure RetryTrace where
  result : Except String Resp
  calls : Nat
  logs : List Nat
  delays : List Nat
deriving DecidableEq, Repr

/-- The body of `retry_request`'s `loop`, translated from the source. The
operation oracle `op` gives the outcome of each invocation, indexed by the
value of `attempt` at the time of the call (0-based). The Rust loop
terminates because a failed iteration with `attempt >= max_retries`
returns; `fuel` makes that bound structural — `retry_request` below starts
it at `maxRetries + 1`, which the invariant `attempt + fuel = maxRetries + 1`
keeps strictly positive until a `return`, so the fuel-0 branch is never
reached from `retry_request`. -/
def retryGo (op : Nat → AttemptOutcome) : Nat → Nat → RetryTrace
  | _, 0 => ⟨.error "", 0, [], []⟩
  | attempt, fuel + 1 =>
    match op attempt with
    | .ok r =>
      if is2xx r.status then ⟨.ok r, 1, [], []⟩
      else if maxRetries ≤ attempt then
        ⟨.error ("HTTP error after " ++ toString maxRetries ++ " attempts: " ++ toString r.status),
         1, [], []⟩
      else
        let t := retryGo op (attempt + 1) fuel
        ⟨t.result, t.calls + 1, (attempt + 1) :: t.logs, retryDelaySecs :: t.delays⟩
    | .error e =>
      if maxRetries ≤ attempt then
        ⟨.error ("Request failed after " ++ toString maxRetries ++ " attempts: " ++ e),
         1, [], []⟩
      else
        let t := retryGo op (attempt + 1) fuel
        ⟨t.result, t.calls + 1, (attempt + 1) :: t.logs, retryDelaySecs :: t.delays⟩

/-- `retry_request`: run the operation, starting at `attempt = 0`. -/
def retry_request (op : Nat → AttemptOutcome) : RetryTrace :=
  retryGo op 0 (maxRetries + 1)

/-- Decode oracle for `response.json::<BrowserRenderingResponse<T>>()`:
given the raw body it yields either a decode-error text or the decoded
pair `(success, result)`. Models serde_json deserialization, which is a
pure function of the body. -/
abbrev Decoder (α : Type) := String → Except String (Bool × α)

/-- `fetch_links`: run the links request through the retry envelope, decode
the body as `BrowserRenderingResponse<Vec<String>>`, reject on
`success: false`. Each `Err` branch wraps the inner message exactly as the
source's `format!` strings do. -/
def fetch_links (op : Nat → AttemptOutcome) (dec : Decoder (List String)) :
    Except String (List String) :=
  match (retry_request op).result with
  | .error e => .error ("Links request failed: " ++ e)
  | .ok r =>
    match dec r.body with
    | .error e => .error ("Failed to parse links response: " ++ e)
    | .ok (success, result) =>
      if success then .ok result
      else .error "Links API returned success: false"

/-- `fetch_markdown`: same shape as `fetch_links`, decoding
`BrowserRenderingResponse<String>`. -/
def fetch_markdown (op : Nat → AttemptOutcome) (dec : Decoder String) :
    Except String String :=
  match (retry_request op).result with
  | .error e => .error ("Markdown request failed: " ++ e)
  | .ok r =>
    match dec r.body with
    | .error e => .error ("Failed to parse markdown response: " ++ e)
    | .ok (success, result) =>
      if success then .ok result
      else .error "Markdown API returned success: false"

/-- Is `pat` a prefix of the list? If so, return what follows it. -/
def stripPfx : List Char → List Char → Option (List Char)
  | [], l => some l
  | _ :: _, [] => none
  | p :: ps, c :: cs => if p = c then stripPfx ps cs else none

/-- `str::replace` body: scan left to right; at each position, if the
pattern matches, emit the replacement and continue after the matched text
(occurrences do not overlap), otherwise keep the character. `fuel` bounds
the scan by the input length (each step consumes at least one character
when the pattern is nonempty, as all patterns used here are), making the
recursion structural. -/
def replaceGo (pat repl : List Char) : Nat → List Char → List Char
  | _, [] => []
  | 0, l => l
  | fuel + 1, c :: cs =>
    match stripPfx pat (c :: cs) with
    | some rest => repl ++ replaceGo pat repl fuel rest
    | none => c :: replaceGo pat repl fuel cs

/-- Rust `str::replace`: replace every occurrence of `pat` by `repl`. -/
def rustReplace (s pat repl : String) : String :=
  String.mk (replaceGo pat.data repl.data s.data.length s.data)

/-- The chained replacements of `url_to_filename`:
`url.replace("://", "_").replace("/", "_").replace(".", "_")`. -/
def safeUrl (url : String) : String :=
  rustReplace (rustReplace (rustReplace url "://" "_") "/" "_") "." "_"

/-- `url_to_filename`: the sanitized URL, an underscore, and the current
time in milliseconds since epoch. The clock read
(`chrono::Utc::now().timestamp_millis()`) is passed in as `nowMillis`. -/
def url_to_filename (url : String) (nowMillis : Nat) : String :=
  safeUrl url ++ "_" ++ toString nowMillis

/-- The R2 object key built in the per-link loop:
`format!("markdown/{}.md", url_to_filename(&link))`. -/
def fileKey (link : String) (nowMillis : Nat) : String :=
  "markdown/" ++ url_to_filename link nowMillis ++ ".md"

/-- The public URL built after a successful put:
`format!("https://<your-r2-bucket-public-domain>/{file_name}")`. -/
def publicUrl (fileName : String) : String :=
  "https://<your-r2-bucket-public-domain>/" ++ fileName

/-- The storage backend's committed state: the sequence of `put(key, bytes)`
calls that completed, in order (bytes are the markdown text). -/
abbrev Committed := List (String × String)

/-- The value of an `Except` that is known to be `.ok`. -/
def okValue : Except String String → String
  | .ok v => v
  | .error _ => ""

/-- The per-link `for link in links` loop of `scrape_and_store`. `i` is the
position of the current link in the discovered list; `fetch i` is the
outcome of `fetch_markdown` for that link, `store i` the outcome of the
R2 `put` (consulted only after a successful fetch), and `ts i` the clock
read inside `url_to_filename` at that iteration. On fetch failure the link
is logged and skipped; on store failure the `?` operator aborts the whole
call with the wrapping error, leaving earlier puts committed. Returns the
`file_urls` result and the committed puts. -/
def scrapeLoop (fetch : Nat → Except String String) (store : Nat → Except String Unit)
    (ts : Nat → Nat) : Nat → List String → Committed →
    Except String (List String) × Committed
  | _, [], st => (.ok [], st)
  | i, link :: rest, st =>
    match fetch i with
    | .ok markdown =>
      let fileName := fileKey link (ts i)
      match store i with
      | .ok _ =>
        match scrapeLoop fetch store ts (i + 1) rest (st ++ [(fileName, markdown)]) with
        | (.ok urls, stF) => (.ok (publicUrl fileName :: urls), stF)
        | (.error e, stF) => (.error e, stF)
      | .error e => (.error ("Failed to store " ++ fileName ++ ": " ++ e), st)
    | .error _ => scrapeLoop fetch store ts (i + 1) rest st

/-- The markdown-fetch outcome for the link at position `i`, through the
full client model (`fetch_markdown(&client, &link, ...)` in the loop). -/
def fetchAt (mdOp : Nat → Nat → AttemptOutcome) (mdDec : Decoder String)
    (i : Nat) : Except String String :=
  fetch_markdown (mdOp i) mdDec

/-- The public URLs the loop is expected to return: the links in discovery
order, keeping exactly the positions whose fetch succeeded. -/
def filesFrom (fetch : Nat → Except String String) (ts : Nat → Nat)
    (i : Nat) (links : List String) : List String :=
  ((List.enumFrom i links).filter (fun p => (fetch p.1).isOk)).map
    (fun p => publicUrl (fileKey p.2 (ts p.1)))

/-- The puts the loop is expected to commit: key and markdown text for each
position whose fetch succeeded, in discovery order. -/
def commitsFrom (fetch : Nat → Except String String) (ts : Nat → Nat)
    (i : Nat) (links : List String) : Committed :=
  ((List.enumFrom i links).filter (fun p => (fetch p.1).isOk)).map
    (fun p => (fileKey p.2 (ts p.1), okValue (fetch p.1)))

/-- `scrape_and_store`: build the client (`clientBuild` models the fallible
`Client::builder().build()`), fetch the links once, then run the per-link
loop. The markdown fetch for the link at position `i` goes through the full
client model: `fetch_markdown (mdOp i) mdDec`. -/
def scrape_and_store (clientBuild : Except String Unit)
    (linksOp : Nat → AttemptOutcome) (linksDec : Decoder (List String))
    (mdOp : Nat → Nat → AttemptOutcome) (mdDec : Decoder String)
    (store : Nat → Except String Unit) (ts : Nat → Nat) :
    Except String (List String) × Committed :=
  match clientBuild with
  | .error e => (.error ("Failed to create client: " ++ e), [])
  | .ok _ =>
    match fetch_links linksOp linksDec with
    | .error e => (.error ("Failed to fetch links: " ++ e), [])
    | .ok links =>
      scrapeLoop (fetchAt mdOp mdDec) store ts 0 links []

/-- The JSON body sent back to the caller (`ScrapeResponse`). -/
structure ScrapeResponse where
  success : Bool
  files : List String
  error : Option String
deriving DecidableEq, Repr

/-- The outward HTTP response: status code plus `ScrapeResponse` body. -/
structure HttpResponse where
  status : Nat
  body : ScrapeResponse
deriving DecidableEq, Repr

/-- The POST path of `main` (the `event(fetch)` handler after the method
check): parse the body (`bodyUrl` is the parsed `ScrapeRequest.url` or the
parse-error text), read the two secrets and the bucket binding, then run
`scrape_and_store`. `Response::from_json` defaults to status 200; the
error branches override it with 400 or 500. Returns the response together
with the storage backend's committed puts. -/
def mainPost (bodyUrl : Except String String) (token accountId : Except String String)
    (bucket : Except String Unit) (clientBuild : Except String Unit)
    (linksOp : Nat → AttemptOutcome) (linksDec : Decoder (List String))
    (mdOp : Nat → Nat → AttemptOutcome) (mdDec : Decoder String)
    (store : Nat → Except String Unit) (ts : Nat → Nat) :
    HttpResponse × Committed :=
  match bodyUrl with
  | .error e => (⟨400, false, [], some ("Invalid request body: " ++ e)⟩, [])
  | .ok _ =>
    match token with
    | .error e => (⟨500, false, [], some ("Missing API token: " ++ e)⟩, [])
    | .ok _ =>
      match accountId with
      | .error e => (⟨500, false, [], some ("Missing account ID: " ++ e)⟩, [])
      | .ok _ =>
        match bucket with
        | .error e => (⟨500, false, [], some ("Failed to access R2 bucket: " ++ e)⟩, [])
        | .ok _ =>
          match scrape_and_store clientBuild linksOp linksDec mdOp mdDec store ts with
          | (.ok files, st) => (⟨200, true, files, none⟩, st)
          | (.error e, st) => (⟨500, false, [], some ("Scraping failed: " ++ e)⟩, st)

/-- Modelled from the spec: the storage backend is a key-value object
store (§6, `put(key, bytes) -> ack`), so a later put to the same key
overwrites the earlier object; reading a key yields the last value put
under it. -/
def kvGet (st : Committed) (k : String) : Option String :=
  ((st.filter (fun p => p.1 == k)).getLast?).map (fun p => p.2)

/-- The message of the terminal error, as a function of the outcome of the
final attempt (the source formats the in-scope `response.status()` or `e`
together with `max_retries`). -/
def terminalMsg : AttemptOutcome → String
  | .ok r => "HTTP error after " ++ toString maxRetries ++ " attempts: " ++ toString r.status
  | .error e => "Request failed after " ++ toString maxRetries ++ " attempts: " ++ e

/-! ## Lemmas about the per-link loop -/

lemma filesFrom_nil (fetch : Nat → Except String String) (ts : Nat → Nat) (i : Nat) :
    filesFrom fetch ts i [] = [] := rfl

lemma commitsFrom_nil (fetch : Nat → Except String String) (ts : Nat → Nat) (i : Nat) :
    commitsFrom fetch ts i [] = [] := rfl

lemma filesFrom_cons_ok (fetch : Nat → Except String String) (ts : Nat → Nat)
    (i : Nat) (link : String) (rest : List String) (hfo : (fetch i).isOk = true) :
    filesFrom fetch ts i (link :: rest) =
      publicUrl (fileKey link (ts i)) :: filesFrom fetch ts (i + 1) rest := by
  simp [filesFrom, List.enumFrom, List.filter_cons, hfo]

lemma filesFrom_cons_err (fetch : Nat → Except String String) (ts : Nat → Nat)
    (i : Nat) (link : String) (rest : List String) (hfe : (fetch i).isOk = false) :
    filesFrom fetch ts i (link :: rest) = filesFrom fetch ts (i + 1) rest := by
  simp [filesFrom, List.enumFrom, List.filter_cons, hfe]

lemma commitsFrom_cons_ok (fetch : Nat → Except String String) (ts : Nat → Nat)
    (i : Nat) (link : String) (rest : List String) (md : String)
    (hf : fetch i = .ok md) :
    commitsFrom fetch ts i (link :: rest) =
      (fileKey link (ts i), md) :: commitsFrom fetch ts (i + 1) rest := by
  have hfo : (fetch i).isOk = true := by rw [hf]; rfl
  simp [commitsFrom, List.enumFrom, List.filter_cons, hfo, okValue, hf,
    Except.isOk, Except.toBool]

lemma commitsFrom_cons_err (fetch : Nat → Except String String) (ts : Nat → Nat)
    (i : Nat) (link : String) (rest : List String) (hfe : (fetch i).isOk = false) :
    commitsFrom fetch ts i (link :: rest) = commitsFrom fetch ts (i + 1) rest := by
  simp [commitsFrom, List.enumFrom, List.filter_cons, hfe]

lemma scrapeLoop_all_ok (fetch : Nat → Except String String)
    (store : Nat → Except String Unit) (ts : Nat → Nat) :
    ∀ (links : List String) (i : Nat) (st : Committed),
    (∀ k, i ≤ k → k < i + links.length → (fetch k).isOk = true → store k = .ok ()) →
    scrapeLoop fetch store ts i links st =
      (.ok (filesFrom fetch ts i links), st ++ commitsFrom fetch ts i links) := by
  intro links
  induction links with
  | nil =>
    intro i st _
    simp [scrapeLoop, filesFrom_nil, commitsFrom_nil]
  | cons link rest ih =>
    intro i st h
    cases hf : fetch i with
    | error e =>
      have hfe : (fetch i).isOk = false := by rw [hf]; rfl
      have hstep : scrapeLoop fetch store ts i (link :: rest) st =
          scrapeLoop fetch store ts (i + 1) rest st := by
        simp only [scrapeLoop, hf]
      rw [hstep, filesFrom_cons_err fetch ts i link rest hfe,
          commitsFrom_cons_err fetch ts i link rest hfe]
      exact ih (i + 1) st
        (fun k hk1 hk2 hk3 => h k (by omega) (by simp only [List.length_cons]; omega) hk3)
    | ok md =>
      have hfo : (fetch i).isOk = true := by rw [hf]; rfl
      have hst : store i = .ok () :=
        h i (le_refl i) (by simp only [List.length_cons]; omega) hfo
      have hrec := ih (i + 1) (st ++ [(fileKey link (ts i), md)])
        (fun k hk1 hk2 hk3 => h k (by omega) (by simp only [List.length_cons]; omega) hk3)
      rw [filesFrom_cons_ok fetch ts i link rest hfo,
          commitsFrom_cons_ok fetch ts i link rest md hf]
      simp only [scrapeLoop, hf, hst, hrec]
      simp [List.append_assoc]

lemma scrapeLoop_store_fail (fetch : Nat → Except String String)
    (store : Nat → Except String Unit) (ts : Nat → Nat)
    (l : String) (post : List String) (e : String) (md : String) :
    ∀ (pre : List String) (i : Nat) (st : Committed),
    (∀ k, i ≤ k → k < i + pre.length → (fetch k).isOk = true → store k = .ok ()) →
    fetch (i + pre.length) = .ok md →
    store (i + pre.length) = .error e →
    scrapeLoop fetch store ts i (pre ++ l :: post) st =
      (.error ("Failed to store " ++ fileKey l (ts (i + pre.length)) ++ ": " ++ e),
       st ++ commitsFrom fetch ts i pre) := by
  intro pre
  induction pre with
  | nil =>
    intro i st _ hfo hse
    simp only [List.length_nil, Nat.add_zero] at hfo hse
    simp only [List.nil_append, scrapeLoop, hfo, hse]
    simp [commitsFrom_nil]
  | cons p rest ih =>
    intro i st h hfo hse
    have hlen : i + (p :: rest).length = (i + 1) + rest.length := by
      simp only [List.length_cons]; omega
    rw [hlen] at hfo hse
    rw [hlen]
    cases hf : fetch i with
    | error e0 =>
      have hfe : (fetch i).isOk = false := by rw [hf]; rfl
      have hstep : scrapeLoop fetch store ts i ((p :: rest) ++ l :: post) st =
          scrapeLoop fetch store ts (i + 1) (rest ++ l :: post) st := by
        simp only [List.cons_append, scrapeLoop, hf, List.append_eq]
      rw [hstep,
        ih (i + 1) st
          (fun k hk1 hk2 hk3 => h k (by omega) (by simp only [List.length_cons]; omega) hk3)
          hfo hse,
        commitsFrom_cons_err fetch ts i p rest hfe]
    | ok md0 =>
      have hfoi : (fetch i).isOk = true := by rw [hf]; rfl
      have hst : store i = .ok () :=
        h i (le_refl i) (by simp only [List.length_cons]; omega) hfoi
      have hrec := ih (i + 1) (st ++ [(fileKey p (ts i), md0)])
        (fun k hk1 hk2 hk3 => h k (by omega) (by simp only [List.length_cons]; omega) hk3)
        hfo hse
      rw [commitsFrom_cons_ok fetch ts i p rest md0 hf]
      simp only [List.cons_append, scrapeLoop, hf, hst, List.append_eq, hrec]
      simp [List.append_assoc]

/-! ## Lemmas about the retry envelope -/

lemma attemptFails_elim (o : AttemptOutcome) (h : attemptFails o = true) :
    (∃ r, o = .ok r ∧ is2xx r.status = false) ∨ (∃ e, o = .error e) := by
  cases o with
  | ok r => exact .inl ⟨r, rfl, by simpa [attemptFails] using h⟩
  | error e => exact .inr ⟨e, rfl⟩

lemma retry_success_at (op : Nat → AttemptOutcome) (k : Nat) (r : Resp)
    (hk : k ≤ maxRetries) (hf : ∀ i, i < k → attemptFails (op i) = true)
    (hko : op k = .ok r) (h2 : is2xx r.status = true) :
    retry_request op = ⟨.ok r, k + 1, (List.range k).map (fun n => n + 1),
                        List.replicate k retryDelaySecs⟩ := by
  simp only [maxRetries] at hk
  interval_cases k
  · simp [retry_request, retryGo, hko, h2, maxRetries]
  · rcases attemptFails_elim _ (hf 0 (by omega)) with ⟨r0, hc0, h20⟩ | ⟨e0, hc0⟩ <;>
      simp_all [retry_request, retryGo, maxRetries, retryDelaySecs, List.range_succ]
  · rcases attemptFails_elim _ (hf 0 (by omega)) with ⟨r0, hc0, h20⟩ | ⟨e0, hc0⟩ <;>
      rcases attemptFails_elim _ (hf 1 (by omega)) with ⟨r1, hc1, h21⟩ | ⟨e1, hc1⟩ <;>
      simp_all [retry_request, retryGo, maxRetries, retryDelaySecs, List.range_succ]
  · rcases attemptFails_elim _ (hf 0 (by omega)) with ⟨r0, hc0, h20⟩ | ⟨e0, hc0⟩ <;>
      rcases attemptFails_elim _ (hf 1 (by omega)) with ⟨r1, hc1, h21⟩ | ⟨e1, hc1⟩ <;>
      rcases attemptFails_elim _ (hf 2 (by omega)) with ⟨r2, hc2, h22⟩ | ⟨e2, hc2⟩ <;>
      simp_all [retry_request, retryGo, maxRetries, retryDelaySecs, List.range_succ]

lemma retry_exhaust (op : Nat → AttemptOutcome)
    (h : ∀ i, i ≤ maxRetries → attemptFails (op i) = true) :
    retry_request op = ⟨.error (terminalMsg (op maxRetries)), 4, [1, 2, 3],
                        [retryDelaySecs, retryDelaySecs, retryDelaySecs]⟩ := by
  rcases attemptFails_elim _ (h 0 (by simp [maxRetries])) with ⟨r0, hc0, h20⟩ | ⟨e0, hc0⟩ <;>
    rcases attemptFails_elim _ (h 1 (by simp [maxRetries])) with ⟨r1, hc1, h21⟩ | ⟨e1, hc1⟩ <;>
    rcases attemptFails_elim _ (h 2 (by simp [maxRetries])) with ⟨r2, hc2, h22⟩ | ⟨e2, hc2⟩ <;>
    rcases attemptFails_elim _ (h 3 (by simp [maxRetries])) with ⟨r3, hc3, h23⟩ | ⟨e3, hc3⟩ <;>
    simp_all [retry_request, retryGo, maxRetries, terminalMsg]

lemma retryGo_congr (op op' : Nat → AttemptOutcome)
    (h : ∀ i, attemptFails (op i) = attemptFails (op' i)) :
    ∀ fuel attempt,
      (retryGo op attempt fuel).calls = (retryGo op' attempt fuel).calls ∧
      (retryGo op attempt fuel).logs = (retryGo op' attempt fuel).logs ∧
      (retryGo op attempt fuel).delays = (retryGo op' attempt fuel).delays ∧
      (retryGo op attempt fuel).result.isOk = (retryGo op' attempt fuel).result.isOk := by
  intro fuel
  induction fuel with
  | zero => intro attempt; simp [retryGo]
  | succ f ih =>
    intro attempt
    have hcls := h attempt
    obtain ⟨ih1, ih2, ih3, ih4⟩ := ih (attempt + 1)
    cases hc : op attempt with
    | ok r =>
      cases hc' : op' attempt with
      | ok r' =>
        rw [hc, hc'] at hcls
        have hxy : is2xx r.status = is2xx r'.status := by
          simpa [attemptFails] using hcls
        cases hx : is2xx r.status with
        | true =>
          have hx' : is2xx r'.status = true := by rw [← hxy]; exact hx
          simp [retryGo, hc, hc', hx, hx', Except.isOk, Except.toBool]
        | false =>
          have hx' : is2xx r'.status = false := by rw [← hxy]; exact hx
          by_cases hterm : maxRetries ≤ attempt
          · simp [retryGo, hc, hc', hx, hx', hterm, Except.isOk, Except.toBool]
          · simp [retryGo, hc, hc', hx, hx', hterm, ih1, ih2, ih3, ih4]
      | error e' =>
        rw [hc, hc'] at hcls
        have hx : is2xx r.status = false := by simpa [attemptFails] using hcls
        by_cases hterm : maxRetries ≤ attempt
        · simp [retryGo, hc, hc', hx, hterm, Except.isOk, Except.toBool]
        · simp [retryGo, hc, hc', hx, hterm, ih1, ih2, ih3, ih4]
    | error e =>
      cases hc' : op' attempt with
      | ok r' =>
        rw [hc, hc'] at hcls
        have hx' : is2xx r'.status = false := by simpa [attemptFails] using hcls.symm
        by_cases hterm : maxRetries ≤ attempt
        · simp [retryGo, hc, hc', hx', hterm, Except.isOk, Except.toBool]
        · simp [retryGo, hc, hc', hx', hterm, ih1, ih2, ih3, ih4]
      | error e' =>
        by_cases hterm : maxRetries ≤ attempt
        · simp [retryGo, hc, hc', hterm, Except.isOk, Except.toBool]
        · simp [retryGo, hc, hc', hterm, ih1, ih2, ih3, ih4]

lemma retryGo_delays_replicate (op : Nat → AttemptOutcome) :
    ∀ fuel attempt,
      (retryGo op attempt fuel).delays =
        List.replicate (retryGo op attempt fuel).logs.length retryDelaySecs := by
  intro fuel
  induction fuel with
  | zero => intro attempt; simp [retryGo]
  | succ f ih =>
    intro attempt
    cases hc : op attempt with
    | ok r =>
      cases hx : is2xx r.status with
      | true => simp [retryGo, hc, hx]
      | false =>
        by_cases hterm : maxRetries ≤ attempt
        · simp [retryGo, hc, hx, hterm]
        · simp [retryGo, hc, hx, hterm, ih, List.replicate_succ]
    | error e =>
      by_cases hterm : maxRetries ≤ attempt
      · simp [retryGo, hc, hterm]
      · simp [retryGo, hc, hterm, ih, List.replicate_succ]

/-! ## Counting and distinguishability helpers -/

lemma filesFrom_length (fetch : Nat → Except String String) (ts : Nat → Nat) :
    ∀ (links : List String) (i : Nat),
    (filesFrom fetch ts i links).length =
      ((List.range' i links.length).filter (fun k => (fetch k).isOk)).length := by
  intro links
  induction links with
  | nil => intro i; simp [filesFrom_nil]
  | cons link rest ih =>
    intro i
    rw [List.length_cons, List.range'_succ, List.filter_cons]
    cases hfo : (fetch i).isOk with
    | true =>
      rw [filesFrom_cons_ok fetch ts i link rest hfo]
      simp [hfo, ih]
    | false =>
      rw [filesFrom_cons_err fetch ts i link rest hfo]
      simp [hfo, ih]

lemma links_reject_ne_transport (e : String) :
    "Links request failed: " ++ e ≠ "Links API returned success: false" := by
  intro h
  have h2 := congrArg String.data h
  simp [String.data_append] at h2

lemma links_reject_ne_decode (e : String) :
    "Failed to parse links response: " ++ e ≠ "Links API returned success: false" := by
  intro h
  have h2 := congrArg String.data h
  simp [String.data_append] at h2

lemma md_reject_ne_transport (e : String) :
    "Markdown request failed: " ++ e ≠ "Markdown API returned success: false" := by
  intro h
  have h2 := congrArg String.data h
  simp [String.data_append] at h2

lemma md_reject_ne_decode (e : String) :
    "Failed to parse markdown response: " ++ e ≠ "Markdown API returned success: false" := by
  intro h
  have h2 := congrArg String.data h
  simp [String.data_append] at h2

/-! ## Client-level scenario lemmas -/

lemma fetch_links_exhaust (op : Nat → AttemptOutcome) (dec : Decoder (List String))
    (h : ∀ i, i ≤ maxRetries → attemptFails (op i) = true) :
    fetch_links op dec = .error ("Links request failed: " ++ terminalMsg (op maxRetries)) := by
  simp [fetch_links, retry_exhaust op h]

lemma fetch_links_with_response (op : Nat → AttemptOutcome) (dec : Decoder (List String))
    (k : Nat) (r : Resp) (hk : k ≤ maxRetries)
    (hf : ∀ i, i < k → attemptFails (op i) = true)
    (hko : op k = .ok r) (h2 : is2xx r.status = true) :
    fetch_links op dec =
      match dec r.body with
      | .error e => .error ("Failed to parse links response: " ++ e)
      | .ok (success, result) =>
        if success then .ok result
        else .error "Links API returned success: false" := by
  simp [fetch_links, retry_success_at op k r hk hf hko h2]

lemma fetch_markdown_exhaust (op : Nat → AttemptOutcome) (dec : Decoder String)
    (h : ∀ i, i ≤ maxRetries → attemptFails (op i) = true) :
    fetch_markdown op dec =
      .error ("Markdown request failed: " ++ terminalMsg (op maxRetries)) := by
  simp [fetch_markdown, retry_exhaust op h]

lemma fetch_markdown_with_response (op : Nat → AttemptOutcome) (dec : Decoder String)
    (k : Nat) (r : Resp) (hk : k ≤ maxRetries)
    (hf : ∀ i, i < k → attemptFails (op i) = true)
    (hko : op k = .ok r) (h2 : is2xx r.status = true) :
    fetch_markdown op dec =
      match dec r.body with
      | .error e => .error ("Failed to parse markdown response: " ++ e)
      | .ok (success, result) =>
        if success then .ok result
        else .error "Markdown API returned success: false" := by
  simp [fetch_markdown, retry_success_at op k r hk hf hko h2]

/-! ## Claim theorems -/

/-- C5: for every source URL `u` and write-time timestamp `t`, the storage
key is `markdown/` ++ f(u) ++ `_` ++ t ++ `.md`, where f replaces `://`,
then `/`, then `.` — each occurrence, in that fixed order — by an
underscore; in particular `https://a.com/x` derives the name
`https_a_com_x_<t>`. -/
theorem C5_key_derivation : ∀ (link : String) (t : Nat),
    fileKey link t = "markdown/" ++ (safeUrl link ++ "_" ++ toString t) ++ ".md" ∧
    safeUrl link = rustReplace (rustReplace (rustReplace link "://" "_") "/" "_") "." "_" ∧
    url_to_filename "https://a.com/x" t = "https_a_com_x_" ++ toString t := by
  intro link t
  refine ⟨rfl, rfl, ?_⟩
  show safeUrl "https://a.com/x" ++ "_" ++ toString t = "https_a_com_x_" ++ toString t
  have h : safeUrl "https://a.com/x" = "https_a_com_x" := by decide
  rw [h, String.append_assoc]
  rfl

/-- C10: `url_to_filename` is not injective in the URL: the distinct URLs
`a/b` and `a.b` map to the same safe name, so at equal write timestamps two
distinct discovered links produce the same storage key, and under the
backend's key-value put semantics the later put overwrites the earlier
object (shown on a concrete two-link run with timestamp 5). -/
theorem C10_filename_collision :
    ("a/b" : String) ≠ "a.b" ∧
    (∀ t, url_to_filename "a/b" t = url_to_filename "a.b" t) ∧
    (∀ t, fileKey "a/b" t = fileKey "a.b" t) ∧
    scrapeLoop (fun i => if i = 0 then .ok "ONE" else .ok "TWO")
        (fun _ => .ok ()) (fun _ => 5) 0 ["a/b", "a.b"] [] =
      (.ok [publicUrl "markdown/a_b_5.md", publicUrl "markdown/a_b_5.md"],
       [("markdown/a_b_5.md", "ONE"), ("markdown/a_b_5.md", "TWO")]) ∧
    kvGet [("markdown/a_b_5.md", "ONE"), ("markdown/a_b_5.md", "TWO")]
        "markdown/a_b_5.md" = some "TWO" := by
  have hu : ∀ t, url_to_filename "a/b" t = url_to_filename "a.b" t := by
    intro t
    show safeUrl "a/b" ++ "_" ++ toString t = safeUrl "a.b" ++ "_" ++ toString t
    have h1 : safeUrl "a/b" = "a_b" := by decide
    have h2 : safeUrl "a.b" = "a_b" := by decide
    rw [h1, h2]
  refine ⟨by decide, hu, ?_, by decide, by decide⟩
  intro t
  show "markdown/" ++ url_to_filename "a/b" t ++ ".md" =
    "markdown/" ++ url_to_filename "a.b" t ++ ".md"
  rw [hu t]

/-- C2: an operation failing on its first two attempts and 2xx-succeeding
on the third returns success after exactly 3 invocations with exactly 2
retry log events; an operation failing on all attempts is invoked exactly
4 times (1 initial + 3 retries) and yields a terminal error. -/
theorem C2_retry_attempt_counts :
    (∀ (op : Nat → AttemptOutcome) (r : Resp),
      attemptFails (op 0) = true → attemptFails (op 1) = true →
      op 2 = .ok r → is2xx r.status = true →
      retry_request op = ⟨.ok r, 3, [1, 2], [retryDelaySecs, retryDelaySecs]⟩) ∧
    (∀ op : Nat → AttemptOutcome,
      (∀ i, i ≤ maxRetries → attemptFails (op i) = true) →
      (retry_request op).calls = 4 ∧ ∃ m, (retry_request op).result = .error m) := by
  constructor
  · intro op r h0 h1 h2 h2xx
    have hf : ∀ i, i < 2 → attemptFails (op i) = true := by
      intro i hi
      interval_cases i
      · exact h0
      · exact h1
    have := retry_success_at op 2 r (by simp [maxRetries]) hf h2 h2xx
    rw [this]
    norm_num [List.range_succ, List.replicate_succ]
  · intro op h
    rw [retry_exhaust op h]
    exact ⟨rfl, _, rfl⟩

/-- C2 witness: a transport failure on attempts 1–2 with a 204 on attempt 3
gives the success trace; an always-failing transport gives 4 calls and a
terminal error. -/
theorem C2_witness :
    retry_request (fun i => if i < 2 then .error "t" else .ok ⟨204, "b"⟩) =
      ⟨.ok ⟨204, "b"⟩, 3, [1, 2], [retryDelaySecs, retryDelaySecs]⟩ ∧
    ((retry_request (fun _ => .error "t")).calls = 4 ∧
      ∃ m, (retry_request (fun _ => .error "t")).result = .error m) :=
  ⟨C2_retry_attempt_counts.1 (fun i => if i < 2 then .error "t" else .ok ⟨204, "b"⟩)
      ⟨204, "b"⟩ (by decide) (by decide) (by decide) (by decide),
   C2_retry_attempt_counts.2 (fun _ => .error "t") (fun i _ => rfl)⟩

/-- C6: a 2xx response is returned immediately — after `k` failures and a
2xx on attempt `k` the trace has exactly `k + 1` calls, `k` logs and `k`
delays; a non-2xx response and a transport error are treated identically
(any two operations with pointwise-equal failure classification produce the
same calls, logs and delays and the same success/failure outcome); and
every delay is the fixed 2 seconds. -/
theorem C6_success_immediate_failures_uniform :
    (∀ (op : Nat → AttemptOutcome) (k : Nat) (r : Resp),
      k ≤ maxRetries → (∀ i, i < k → attemptFails (op i) = true) →
      op k = .ok r → is2xx r.status = true →
      retry_request op = ⟨.ok r, k + 1, (List.range k).map (fun n => n + 1),
                          List.replicate k retryDelaySecs⟩) ∧
    (∀ op op' : Nat → AttemptOutcome,
      (∀ i, attemptFails (op i) = attemptFails (op' i)) →
      (retry_request op).calls = (retry_request op').calls ∧
      (retry_request op).logs = (retry_request op').logs ∧
      (retry_request op).delays = (retry_request op').delays ∧
      (retry_request op).result.isOk = (retry_request op').result.isOk) ∧
    (∀ op : Nat → AttemptOutcome,
      (retry_request op).delays =
        List.replicate (retry_request op).logs.length retryDelaySecs) :=
  ⟨fun op k r hk hf hko h2 => retry_success_at op k r hk hf hko h2,
   fun op op' h => retryGo_congr op op' h (maxRetries + 1) 0,
   fun op => retryGo_delays_replicate op (maxRetries + 1) 0⟩

/-- C6 witness: one failure then a 204 gives a 2-call, 1-delay trace; an
always-non-2xx operation and an always-transport-failing operation get
identical retry treatment; delays are all the fixed constant. -/
theorem C6_witness :
    retry_request (fun i => if i = 0 then .ok ⟨500, ""⟩ else .ok ⟨204, "x"⟩) =
      ⟨.ok ⟨204, "x"⟩, 1 + 1, (List.range 1).map (fun n => n + 1),
       List.replicate 1 retryDelaySecs⟩ ∧
    (retry_request (fun _ => .ok ⟨500, ""⟩)).calls =
      (retry_request (fun _ => .error "x")).calls ∧
    (retry_request (fun _ => .error "y")).delays =
      List.replicate (retry_request (fun _ => .error "y")).logs.length retryDelaySecs :=
  ⟨C6_success_immediate_failures_uniform.1
      (fun i => if i = 0 then .ok ⟨500, ""⟩ else .ok ⟨204, "x"⟩) 1 ⟨204, "x"⟩
      (by decide) (fun i hi => by interval_cases i; decide) (by decide) (by decide),
   (C6_success_immediate_failures_uniform.2.1
      (fun _ => .ok ⟨500, ""⟩) (fun _ => .error "x") (fun i => rfl)).1,
   C6_success_immediate_failures_uniform.2.2 (fun _ => .error "y")⟩

/-- C8 counterexample: an operation always returning status 500 is invoked
4 times, but the terminal error message is
`HTTP error after 3 attempts: 500` — it contains the digit 3 (the
`max_retries` constant) and no digit 4 anywhere, so the error does not
carry the count of attempts that were made (4). -/
theorem C8_counterexample :
    (retry_request (fun _ => .ok ⟨500, ""⟩)).calls = 4 ∧
    (retry_request (fun _ => .ok ⟨500, ""⟩)).result =
      .error "HTTP error after 3 attempts: 500" ∧
    ¬ ('4' ∈ "HTTP error after 3 attempts: 500".data) ∧
    ('3' ∈ "HTTP error after 3 attempts: 500".data) := by decide

/-- C8 amended: when every attempt fails, `retry_request` makes 4 calls and
the terminal error carries the last-seen HTTP status (status failure) or
the last-seen transport error text (transport failure), together with the
retry count `max_retries = 3` — not the total attempt count 4. -/
theorem C8_terminal_error_content :
    ∀ op : Nat → AttemptOutcome,
    (∀ i, i ≤ maxRetries → attemptFails (op i) = true) →
    (retry_request op).calls = 4 ∧
    (∀ r, op maxRetries = .ok r →
      (retry_request op).result =
        .error ("HTTP error after " ++ toString maxRetries ++ " attempts: " ++
          toString r.status)) ∧
    (∀ e, op maxRetries = .error e →
      (retry_request op).result =
        .error ("Request failed after " ++ toString maxRetries ++ " attempts: " ++ e)) := by
  intro op h
  rw [retry_exhaust op h]
  refine ⟨rfl, ?_, ?_⟩
  · intro r hr
    simp [terminalMsg, hr]
  · intro e he
    simp [terminalMsg, he]

/-- C8 witness: the always-transport-failing operation is called 4 times
and surfaces the last transport text with the retry count 3. -/
theorem C8_witness :
    (retry_request (fun _ => .error "boom")).calls = 4 ∧
    (retry_request (fun _ => .error "boom")).result =
      .error ("Request failed after " ++ toString maxRetries ++ " attempts: " ++ "boom") :=
  ⟨(C8_terminal_error_content (fun _ => .error "boom") (fun _ _ => rfl)).1,
   (C8_terminal_error_content (fun _ => .error "boom") (fun _ _ => rfl)).2.2
     "boom" rfl⟩

/-- C7: when transport succeeds with a 2xx response whose decoded payload
carries `success: false`, the client fails with the upstream-rejection
message, which differs from every transport-wrap message and every
decode-failure message; the rejection is decided after the retry envelope
returned, so the operation is invoked exactly `k + 1` times (no retry is
triggered by the rejection) — for the links client and likewise the
markdown client. -/
theorem C7_upstream_rejection :
    (∀ (op : Nat → AttemptOutcome) (dec : Decoder (List String))
       (k : Nat) (r : Resp) (l : List String),
      k ≤ maxRetries → (∀ i, i < k → attemptFails (op i) = true) →
      op k = .ok r → is2xx r.status = true → dec r.body = .ok (false, l) →
      fetch_links op dec = .error "Links API returned success: false" ∧
      (retry_request op).calls = k + 1 ∧
      (∀ e, "Links request failed: " ++ e ≠ "Links API returned success: false") ∧
      (∀ e, "Failed to parse links response: " ++ e ≠
        "Links API returned success: false")) ∧
    (∀ (op : Nat → AttemptOutcome) (dec : Decoder String) (k : Nat) (r : Resp) (s : String),
      k ≤ maxRetries → (∀ i, i < k → attemptFails (op i) = true) →
      op k = .ok r → is2xx r.status = true → dec r.body = .ok (false, s) →
      fetch_markdown op dec = .error "Markdown API returned success: false" ∧
      (retry_request op).calls = k + 1 ∧
      (∀ e, "Markdown request failed: " ++ e ≠ "Markdown API returned success: false") ∧
      (∀ e, "Failed to parse markdown response: " ++ e ≠
        "Markdown API returned success: false")) := by
  constructor
  · intro op dec k r l hk hf hko h2 hd
    refine ⟨?_, ?_, links_reject_ne_transport, links_reject_ne_decode⟩
    · rw [fetch_links_with_response op dec k r hk hf hko h2, hd]
      rfl
    · rw [retry_success_at op k r hk hf hko h2]
  · intro op dec k r s hk hf hko h2 hd
    refine ⟨?_, ?_, md_reject_ne_transport, md_reject_ne_decode⟩
    · rw [fetch_markdown_with_response op dec k r hk hf hko h2, hd]
      rfl
    · rw [retry_success_at op k r hk hf hko h2]

/-- C7 witness: a first-attempt 200 whose body decodes to `success: false`
yields the rejection error after exactly one call, for both clients, and
the rejection message differs from a sample transport-wrap message. -/
theorem C7_witness :
    fetch_links (fun _ => .ok ⟨200, "B"⟩) (fun _ => .ok (false, [])) =
      .error "Links API returned success: false" ∧
    (retry_request (fun _ => .ok ⟨200, "B"⟩)).calls = 0 + 1 ∧
    "Links request failed: x" ≠ "Links API returned success: false" ∧
    fetch_markdown (fun _ => .ok ⟨200, "B"⟩) (fun _ => .ok (false, "")) =
      .error "Markdown API returned success: false" := by
  have h1 := C7_upstream_rejection.1 (fun _ => .ok ⟨200, "B"⟩) (fun _ => .ok (false, []))
    0 ⟨200, "B"⟩ [] (by decide) (fun i hi => absurd hi (Nat.not_lt_zero i))
    rfl (by decide) rfl
  have h2 := C7_upstream_rejection.2 (fun _ => .ok ⟨200, "B"⟩) (fun _ => .ok (false, ""))
    0 ⟨200, "B"⟩ "" (by decide) (fun i hi => absurd hi (Nat.not_lt_zero i))
    rfl (by decide) rfl
  exact ⟨h1.1, h1.2.1, h1.2.2.1 "x", h2.1⟩

/-- C4: if link discovery fails for any reason, `scrape_and_store` fails
with the wrapped links error and an empty committed state — no per-link
fetch or store is consulted (the conclusion is a fixed value for every
`mdOp`, `mdDec`, `store`, `ts`) — and the caller receives a 500 failure
response with an empty files list; moreover each of the three failure
kinds of `fetch_links` (transport exhaustion, `success: false`, malformed
body) produces such an error. -/
theorem C4_discovery_failure_terminal :
    (∀ (u tok acc : String) (lOp : Nat → AttemptOutcome) (lDec : Decoder (List String))
       (mdOp : Nat → Nat → AttemptOutcome) (mdDec : Decoder String)
       (store : Nat → Except String Unit) (ts : Nat → Nat) (e : String),
      fetch_links lOp lDec = .error e →
      scrape_and_store (.ok ()) lOp lDec mdOp mdDec store ts =
        (.error ("Failed to fetch links: " ++ e), []) ∧
      mainPost (.ok u) (.ok tok) (.ok acc) (.ok ()) (.ok ()) lOp lDec mdOp mdDec store ts =
        (⟨500, false, [], some ("Scraping failed: " ++ ("Failed to fetch links: " ++ e))⟩,
         [])) ∧
    (∀ (lOp : Nat → AttemptOutcome) (lDec : Decoder (List String)),
      (∀ i, i ≤ maxRetries → attemptFails (lOp i) = true) →
      fetch_links lOp lDec =
        .error ("Links request failed: " ++ terminalMsg (lOp maxRetries))) ∧
    (∀ (lOp : Nat → AttemptOutcome) (lDec : Decoder (List String))
       (k : Nat) (r : Resp) (l : List String),
      k ≤ maxRetries → (∀ i, i < k → attemptFails (lOp i) = true) →
      lOp k = .ok r → is2xx r.status = true → lDec r.body = .ok (false, l) →
      fetch_links lOp lDec = .error "Links API returned success: false") ∧
    (∀ (lOp : Nat → AttemptOutcome) (lDec : Decoder (List String))
       (k : Nat) (r : Resp) (e : String),
      k ≤ maxRetries → (∀ i, i < k → attemptFails (lOp i) = true) →
      lOp k = .ok r → is2xx r.status = true → lDec r.body = .error e →
      fetch_links lOp lDec = .error ("Failed to parse links response: " ++ e)) := by
  refine ⟨?_, ?_, ?_, ?_⟩
  · intro u tok acc lOp lDec mdOp mdDec store ts e hl
    constructor
    · simp [scrape_and_store, hl]
    · simp [mainPost, scrape_and_store, hl]
  · intro lOp lDec h
    exact fetch_links_exhaust lOp lDec h
  · intro lOp lDec k r l hk hf hko h2 hd
    rw [fetch_links_with_response lOp lDec k r hk hf hko h2, hd]
    rfl
  · intro lOp lDec k r e hk hf hko h2 hd
    rw [fetch_links_with_response lOp lDec k r hk hf hko h2, hd]

/-- C4 witness: a links call whose body decodes to `success: false` makes
the whole invocation fail with no commits and a 500 empty-files response. -/
theorem C4_witness :
    scrape_and_store (.ok ()) (fun _ => .ok ⟨200, "B"⟩) (fun _ => .ok (false, []))
        (fun _ _ => .ok ⟨200, "M"⟩) (fun _ => .ok (true, "md"))
        (fun _ => .ok ()) (fun _ => 0) =
      (.error ("Failed to fetch links: " ++ "Links API returned success: false"), []) ∧
    mainPost (.ok "u") (.ok "t") (.ok "a") (.ok ()) (.ok ())
        (fun _ => .ok ⟨200, "B"⟩) (fun _ => .ok (false, []))
        (fun _ _ => .ok ⟨200, "M"⟩) (fun _ => .ok (true, "md"))
        (fun _ => .ok ()) (fun _ => 0) =
      (⟨500, false, [],
        some ("Scraping failed: " ++
          ("Failed to fetch links: " ++ "Links API returned success: false"))⟩, []) :=
  C4_discovery_failure_terminal.1 "u" "t" "a"
    (fun _ => .ok ⟨200, "B"⟩) (fun _ => .ok (false, []))
    (fun _ _ => .ok ⟨200, "M"⟩) (fun _ => .ok (true, "md"))
    (fun _ => .ok ()) (fun _ => 0) "Links API returned success: false" (by decide)

/-- C1: when link discovery succeeds and every store succeeds, the
invocation returns exactly the public locations of the links whose
markdown fetch succeeded, as a filter of the discovery order (no
reordering), and the number of returned locations equals the number of
positions whose fetch succeeded. -/
theorem C1_order_and_count :
    ∀ (lOp : Nat → AttemptOutcome) (lDec : Decoder (List String))
      (mdOp : Nat → Nat → AttemptOutcome) (mdDec : Decoder String)
      (store : Nat → Except String Unit) (ts : Nat → Nat) (links : List String),
    fetch_links lOp lDec = .ok links →
    (∀ k, store k = .ok ()) →
    scrape_and_store (.ok ()) lOp lDec mdOp mdDec store ts =
      (.ok (filesFrom (fetchAt mdOp mdDec) ts 0 links),
       commitsFrom (fetchAt mdOp mdDec) ts 0 links) ∧
    (filesFrom (fetchAt mdOp mdDec) ts 0 links).length =
      ((List.range links.length).filter (fun k => (fetchAt mdOp mdDec k).isOk)).length := by
  intro lOp lDec mdOp mdDec store ts links hl hs
  constructor
  · have hloop := scrapeLoop_all_ok (fetchAt mdOp mdDec) store ts links 0 []
      (fun k _ _ _ => hs k)
    simp [scrape_and_store, hl, hloop]
  · rw [filesFrom_length, List.range_eq_range']

/-- C1 witness: two discovered links, the first fetch succeeds and the
second fails after retries; the run stores and returns exactly the first
link's location, and the count matches. -/
theorem C1_witness :
    scrape_and_store (.ok ()) (fun _ => .ok ⟨200, "LB"⟩)
        (fun _ => .ok (true, ["https://example.com/a", "https://example.com/b"]))
        (fun i _ => if i = 0 then .ok ⟨200, "A"⟩ else .ok ⟨500, "B"⟩)
        (fun b => if b = "A" then .ok (true, "# A") else .error "bad")
        (fun _ => .ok ()) (fun _ => 7) =
      (.ok [publicUrl (fileKey "https://example.com/a" 7)],
       [(fileKey "https://example.com/a" 7, "# A")]) := by
  have h := C1_order_and_count (fun _ => .ok ⟨200, "LB"⟩)
    (fun _ => .ok (true, ["https://example.com/a", "https://example.com/b"]))
    (fun i _ => if i = 0 then .ok ⟨200, "A"⟩ else .ok ⟨500, "B"⟩)
    (fun b => if b = "A" then .ok (true, "# A") else .error "bad")
    (fun _ => .ok ()) (fun _ => 7)
    ["https://example.com/a", "https://example.com/b"] (by decide) (fun _ => rfl)
  rw [h.1]
  decide

/-- C3: if the store of a fetched document fails at some position, the
whole invocation fails with the wrapping store error — the result and the
committed state do not depend on the links after that position — the
committed state is exactly the earlier successful puts (no rollback), and
the caller receives a 500 failure with an empty files list. -/
theorem C3_store_failure_aborts :
    ∀ (u tok acc : String) (lOp : Nat → AttemptOutcome) (lDec : Decoder (List String))
      (mdOp : Nat → Nat → AttemptOutcome) (mdDec : Decoder String)
      (store : Nat → Except String Unit) (ts : Nat → Nat)
      (pre : List String) (l : String) (post : List String) (e md : String),
    fetch_links lOp lDec = .ok (pre ++ l :: post) →
    (∀ k, k < pre.length → (fetchAt mdOp mdDec k).isOk = true → store k = .ok ()) →
    fetchAt mdOp mdDec pre.length = .ok md →
    store pre.length = .error e →
    scrape_and_store (.ok ()) lOp lDec mdOp mdDec store ts =
      (.error ("Failed to store " ++ fileKey l (ts pre.length) ++ ": " ++ e),
       commitsFrom (fetchAt mdOp mdDec) ts 0 pre) ∧
    mainPost (.ok u) (.ok tok) (.ok acc) (.ok ()) (.ok ()) lOp lDec mdOp mdDec store ts =
      (⟨500, false, [],
        some ("Scraping failed: " ++
          ("Failed to store " ++ fileKey l (ts pre.length) ++ ": " ++ e))⟩,
       commitsFrom (fetchAt mdOp mdDec) ts 0 pre) := by
  intro u tok acc lOp lDec mdOp mdDec store ts pre l post e md hl hstores hfetch hstoreE
  have hloop := scrapeLoop_store_fail (fetchAt mdOp mdDec) store ts l post e md pre 0 []
    (fun k _ hk2 hk3 => hstores k (by omega) hk3)
    (by simpa using hfetch) (by simpa using hstoreE)
  rw [Nat.zero_add] at hloop
  constructor
  · simp [scrape_and_store, hl, hloop]
  · simp [mainPost, scrape_and_store, hl, hloop]

/-- C3 witness: two links, both fetches succeed, the first store succeeds
and the second fails; the invocation fails with the store error while the
first put stays committed, and the response is a 500 with empty files. -/
theorem C3_witness :
    scrape_and_store (.ok ()) (fun _ => .ok ⟨200, "LB"⟩)
        (fun _ => .ok (true, ["u1", "u2"]))
        (fun _ _ => .ok ⟨200, "M"⟩) (fun _ => .ok (true, "# D"))
        (fun k => if k = 0 then .ok () else .error "disk") (fun _ => 9) =
      (.error ("Failed to store " ++ fileKey "u2" 9 ++ ": " ++ "disk"),
       [(fileKey "u1" 9, "# D")]) ∧
    mainPost (.ok "u") (.ok "t") (.ok "a") (.ok ()) (.ok ())
        (fun _ => .ok ⟨200, "LB"⟩) (fun _ => .ok (true, ["u1", "u2"]))
        (fun _ _ => .ok ⟨200, "M"⟩) (fun _ => .ok (true, "# D"))
        (fun k => if k = 0 then .ok () else .error "disk") (fun _ => 9) =
      (⟨500, false, [],
        some ("Scraping failed: " ++
          ("Failed to store " ++ fileKey "u2" 9 ++ ": " ++ "disk"))⟩,
       [(fileKey "u1" 9, "# D")]) := by
  have h := C3_store_failure_aborts "u" "t" "a" (fun _ => .ok ⟨200, "LB"⟩)
    (fun _ => .ok (true, ["u1", "u2"]))
    (fun _ _ => .ok ⟨200, "M"⟩) (fun _ => .ok (true, "# D"))
    (fun k => if k = 0 then .ok () else .error "disk") (fun _ => 9)
    ["u1"] "u2" [] "disk" "# D" (by decide)
    (fun k hk _ => by
      have hk0 : k = 0 := by simpa [Nat.lt_one_iff] using hk
      subst hk0
      rfl)
    (by decide) (by decide)
  constructor
  · rw [h.1]
    decide
  · rw [h.2]
    decide

/-- C9: the HTTP status of the response is determined by the outcome —
success is exactly status 200 with `success = true`; a malformed body gives
400, a missing secret or bucket gives 500, and an orchestration failure
gives 500 — always with a structured `ScrapeResponse` body. -/
theorem C9_status_by_outcome :
    (∀ (b t a : Except String String) (bk cb : Except String Unit)
       (lOp : Nat → AttemptOutcome) (lDec : Decoder (List String))
       (mdOp : Nat → Nat → AttemptOutcome) (mdDec : Decoder String)
       (store : Nat → Except String Unit) (ts : Nat → Nat),
      (mainPost b t a bk cb lOp lDec mdOp mdDec store ts).1.body.success = true ↔
      (mainPost b t a bk cb lOp lDec mdOp mdDec store ts).1.status = 200) ∧
    (∀ (e : String) (t a : Except String String) (bk cb : Except String Unit)
       (lOp : Nat → AttemptOutcome) (lDec : Decoder (List String))
       (mdOp : Nat → Nat → AttemptOutcome) (mdDec : Decoder String)
       (store : Nat → Except String Unit) (ts : Nat → Nat),
      mainPost (.error e) t a bk cb lOp lDec mdOp mdDec store ts =
        (⟨400, false, [], some ("Invalid request body: " ++ e)⟩, [])) ∧
    (∀ (u e : String) (a : Except String String) (bk cb : Except String Unit)
       (lOp : Nat → AttemptOutcome) (lDec : Decoder (List String))
       (mdOp : Nat → Nat → AttemptOutcome) (mdDec : Decoder String)
       (store : Nat → Except String Unit) (ts : Nat → Nat),
      mainPost (.ok u) (.error e) a bk cb lOp lDec mdOp mdDec store ts =
        (⟨500, false, [], some ("Missing API token: " ++ e)⟩, [])) ∧
    (∀ (u tok e : String) (bk cb : Except String Unit)
       (lOp : Nat → AttemptOutcome) (lDec : Decoder (List String))
       (mdOp : Nat → Nat → AttemptOutcome) (mdDec : Decoder String)
       (store : Nat → Except String Unit) (ts : Nat → Nat),
      mainPost (.ok u) (.ok tok) (.error e) bk cb lOp lDec mdOp mdDec store ts =
        (⟨500, false, [], some ("Missing account ID: " ++ e)⟩, [])) ∧
    (∀ (u tok acc e : String) (cb : Except String Unit)
       (lOp : Nat → AttemptOutcome) (lDec : Decoder (List String))
       (mdOp : Nat → Nat → AttemptOutcome) (mdDec : Decoder String)
       (store : Nat → Except String Unit) (ts : Nat → Nat),
      mainPost (.ok u) (.ok tok) (.ok acc) (.error e) cb lOp lDec mdOp mdDec store ts =
        (⟨500, false, [], some ("Failed to access R2 bucket: " ++ e)⟩, [])) ∧
    (∀ (u tok acc : String) (cb : Except String Unit)
       (lOp : Nat → AttemptOutcome) (lDec : Decoder (List String))
       (mdOp : Nat → Nat → AttemptOutcome) (mdDec : Decoder String)
       (store : Nat → Except String Unit) (ts : Nat → Nat)
       (files : List String) (st : Committed),
      scrape_and_store cb lOp lDec mdOp mdDec store ts = (.ok files, st) →
      mainPost (.ok u) (.ok tok) (.ok acc) (.ok ()) cb lOp lDec mdOp mdDec store ts =
        (⟨200, true, files, none⟩, st)) ∧
    (∀ (u tok acc : String) (cb : Except String Unit)
       (lOp : Nat → AttemptOutcome) (lDec : Decoder (List String))
       (mdOp : Nat → Nat → AttemptOutcome) (mdDec : Decoder String)
       (store : Nat → Except String Unit) (ts : Nat → Nat)
       (e : String) (st : Committed),
      scrape_and_store cb lOp lDec mdOp mdDec store ts = (.error e, st) →
      mainPost (.ok u) (.ok tok) (.ok acc) (.ok ()) cb lOp lDec mdOp mdDec store ts =
        (⟨500, false, [], some ("Scraping failed: " ++ e)⟩, st)) := by
  refine ⟨?_, ?_, ?_, ?_, ?_, ?_, ?_⟩
  · intro b t a bk cb lOp lDec mdOp mdDec store ts
    cases b with
    | error e => simp [mainPost]
    | ok u =>
      cases t with
      | error e => simp [mainPost]
      | ok tok =>
        cases a with
        | error e => simp [mainPost]
        | ok acc =>
          cases bk with
          | error e => simp [mainPost]
          | ok v =>
            rcases hsc : scrape_and_store cb lOp lDec mdOp mdDec store ts with ⟨res, st⟩
            cases res <;> simp [mainPost, hsc]
  · intro e t a bk cb lOp lDec mdOp mdDec store ts
    rfl
  · intro u e a bk cb lOp lDec mdOp mdDec store ts
    rfl
  · intro u tok e bk cb lOp lDec mdOp mdDec store ts
    rfl
  · intro u tok acc e cb lOp lDec mdOp mdDec store ts
    rfl
  · intro u tok acc cb lOp lDec mdOp mdDec store ts files st hsc
    simp [mainPost, hsc]
  · intro u tok acc cb lOp lDec mdOp mdDec store ts e st hsc
    simp [mainPost, hsc]

/-- C9 witness: the success-iff-200 equivalence, the 400 branch and the
200 branch at concrete inputs. -/
theorem C9_witness :
    ((mainPost (.error "bad json") (.ok "t") (.ok "a") (.ok ()) (.ok ())
        (fun _ => .ok ⟨200, "B"⟩) (fun _ => .ok (true, []))
        (fun _ _ => .ok ⟨200, "M"⟩) (fun _ => .ok (true, "md"))
        (fun _ => .ok ()) (fun _ => 0)).1.body.success = true ↔
      (mainPost (.error "bad json") (.ok "t") (.ok "a") (.ok ()) (.ok ())
        (fun _ => .ok ⟨200, "B"⟩) (fun _ => .ok (true, []))
        (fun _ _ => .ok ⟨200, "M"⟩) (fun _ => .ok (true, "md"))
        (fun _ => .ok ()) (fun _ => 0)).1.status = 200) ∧
    mainPost (.error "bad json") (.ok "t") (.ok "a") (.ok ()) (.ok ())
        (fun _ => .ok ⟨200, "B"⟩) (fun _ => .ok (true, []))
        (fun _ _ => .ok ⟨200, "M"⟩) (fun _ => .ok (true, "md"))
        (fun _ => .ok ()) (fun _ => 0) =
      (⟨400, false, [], some ("Invalid request body: " ++ "bad json")⟩, []) ∧
    mainPost (.ok "u") (.ok "t") (.ok "a") (.ok ()) (.ok ())
        (fun _ => .ok ⟨200, "B"⟩) (fun _ => .ok (true, []))
        (fun _ _ => .ok ⟨200, "M"⟩) (fun _ => .ok (true, "md"))
        (fun _ => .ok ()) (fun _ => 0) =
      (⟨200, true, [], none⟩, []) :=
  ⟨C9_status_by_outcome.1 (.error "bad json") (.ok "t") (.ok "a") (.ok ()) (.ok ())
      (fun _ => .ok ⟨200, "B"⟩) (fun _ => .ok (true, []))
      (fun _ _ => .ok ⟨200, "M"⟩) (fun _ => .ok (true, "md"))
      (fun _ => .ok ()) (fun _ => 0),
   C9_status_by_outcome.2.1 "bad json" (.ok "t") (.ok "a") (.ok ()) (.ok ())
      (fun _ => .ok ⟨200, "B"⟩) (fun _ => .ok (true, []))
      (fun _ _ => .ok ⟨200, "M"⟩) (fun _ => .ok (true, "md"))
      (fun _ => .ok ()) (fun _ => 0),
   C9_status_by_outcome.2.2.2.2.2.1 "u" "t" "a" (.ok ())
      (fun _ => .ok ⟨200, "B"⟩) (fun _ => .ok (true, []))
      (fun _ _ => .ok ⟨200, "M"⟩) (fun _ => .ok (true, "md"))
      (fun _ => .ok ()) (fun _ => 0) [] [] (by decide)⟩

end Scraper
